import Mathlib

/-!
Shallow embedding of `src/main.py`, a FastAPI text-summarization service
that relays requests to an external generation API (the Writer SDK).

Modelling conventions:
  * Python strings are Lean `String`; `str.strip` / `str.lower` / `str.split`
    are re-implemented below over `List Char` (ASCII whitespace approximation).
  * Python `float` arithmetic in `round((1 - s/o) * 100, 1)` is modelled over
    `ℚ` with round-half-to-even (the rounding mode of Python `round`).
  * Python exceptions are the inductive `Exc`; `str(e)` is `Exc.str`.
    FastAPI/starlette `HTTPException.__str__` renders as
    `f"{status_code}: {detail}"`, embedded in `Exc.str`.
  * The upstream SDK call `writer_client.chat.chat(...)` is a parameter of the
    handlers: a function from the argument record `ChatArgs` to either a result
    or a raised exception (sync path), or to a stream outcome (streaming path).
  * The async generator `generate_stream` of the streaming endpoint runs only
    while the `StreamingResponse` body is being produced, i.e. after the
    HTTP status and headers are committed; the embedding therefore places the
    upstream call and its try/except inside `generate_stream`, and the outer
    handler returns `.streaming` for every validated request.
-/

/-- ASCII approximation of the whitespace class used by Python `str.strip` and
`str.split`. -/
def isPySpace (c : Char) : Bool :=
  c = ' ' || c = '\t' || c = '\n' || c = '\r' || c = '\x0b' || c = '\x0c'

/-- Python `s.strip()`: drop leading and trailing whitespace. -/
def pyStrip (s : String) : String :=
  ⟨((s.data.dropWhile isPySpace).reverse.dropWhile isPySpace).reverse⟩

/-- Python `s.lower()` (ASCII). -/
def pyLower (s : String) : String :=
  ⟨s.data.map Char.toLower⟩

/-- Helper for `pySplit`: accumulate maximal runs of non-whitespace characters.
The second argument is the reversed current run. -/
def wordsAux : List Char → List Char → List String
  | [], cur => if cur = [] then [] else [⟨cur.reverse⟩]
  | c :: rest, cur =>
    if isPySpace c then
      if cur = [] then wordsAux rest [] else ⟨cur.reverse⟩ :: wordsAux rest []
    else
      wordsAux rest (c :: cur)

/-- Python `s.split()` with no separator: maximal non-whitespace runs, empties
dropped. -/
def pySplit (s : String) : List String :=
  wordsAux s.data []

/-- `count_words` from `main.py`: `len(text.strip().split())`. -/
def count_words (text : String) : Nat :=
  (pySplit (pyStrip text)).length

/-- Whether `pre` is a leading segment of the second list. -/
def listHasPre : List Char → List Char → Bool
  | [], _ => true
  | _ :: _, [] => false
  | a :: as, b :: bs => a == b && listHasPre as bs

/-- Whether `needle` occurs as a contiguous sublist. -/
def listHasSub (needle : List Char) : List Char → Bool
  | [] => needle.isEmpty
  | b :: bs => listHasPre needle (b :: bs) || listHasSub needle bs

/-- Python `needle in hay` on strings: contiguous substring test. -/
def strContains (hay needle : String) : Bool :=
  listHasSub needle.data hay.data

/-- Floor of a rational, computed from the normalized numerator and
denominator with flooring integer division. -/
def ratFloor (q : ℚ) : ℤ :=
  Int.fdiv q.num q.den

/-- Python `round(x, 1)` modelled over `ℚ`: scale by 10, round half to even,
scale back. -/
def pyRound1 (x : ℚ) : ℚ :=
  let y := x * 10
  let f : ℤ := ratFloor y
  let r : ℚ := y - (f : ℚ)
  let n : ℤ :=
    if r < 1 / 2 then f
    else if 1 / 2 < r then f + 1
    else if f % 2 = 0 then f else f + 1
  (n : ℚ) / 10

/-- The compression-ratio expression of `main.py` (lines 118 and 213):
`round((1 - summary_word_count / original_word_count) * 100, 1) if
original_word_count > 0 else 0`. -/
def compression_ratio (original_word_count summary_word_count : Nat) : ℚ :=
  if 0 < original_word_count then
    pyRound1 ((1 - (summary_word_count : ℚ) / (original_word_count : ℚ)) * 100)
  else 0

/-- `TextSummarizeRequest` from `main.py`. `style` is `Optional[str]` with
default `"concise"`; an explicit JSON `null` arrives as `none`. -/
structure TextSummarizeRequest where
  text : String
  max_length : Option Int
  style : Option String
deriving DecidableEq

/-- `TextSummarizeResponse` from `main.py`. -/
structure TextSummarizeResponse where
  summary : String
  original_word_count : Nat
  summary_word_count : Nat
  compressionRatio : ℚ
deriving DecidableEq

/-- The prompt construction of `main.py` (duplicated verbatim in both
handlers, lines 79-96 and 164-181): select one of three f-string templates by
comparing `request.style`. -/
def buildPrompt (text : String) (style : Option String) : String :=
  if style = some "bullet_points" then
    "Please summarize the following text in bullet points format. Focus on the key points and main ideas:\n\n"
      ++ text ++ "\n\nSummary (bullet points):"
  else if style = some "detailed" then
    "Please provide a detailed summary of the following text, maintaining important details and context:\n\n"
      ++ text ++ "\n\nDetailed summary:"
  else
    "Please provide a concise summary of the following text, capturing the main points in a clear and brief manner:\n\n"
      ++ text ++ "\n\nConcise summary:"

/-- Argument record of the upstream SDK call `writer_client.chat.chat(...)`.
`userMessage` is the content of the single user message; the Python float
`temperature=0.3` is modelled as the rational `3/10`. -/
structure ChatArgs where
  model : String
  userMessage : String
  max_tokens : Int
  temperature : ℚ
  stream : Bool
deriving DecidableEq

/-- The argument expression of both call sites (lines 99-109 and 189-200):
`max_tokens=request.max_length if request.max_length else 500` selects by
Python truthiness, so `None` and `0` both fall to `500`. -/
def chatArgs (prompt : String) (max_length : Option Int) (stream : Bool) : ChatArgs :=
  { model := "palmyra-x-004"
    userMessage := prompt
    max_tokens := match max_length with
      | some v => if v ≠ 0 then v else 500
      | none => 500
    temperature := 3 / 10
    stream := stream }

/-- The arguments of the upstream invocation made by the synchronous handler
for a given request. -/
def syncChatArgs (req : TextSummarizeRequest) : ChatArgs :=
  chatArgs (buildPrompt req.text req.style) req.max_length false

/-- The arguments of the upstream invocation made inside the streaming
handler generator for a given request. -/
def streamChatArgs (req : TextSummarizeRequest) : ChatArgs :=
  chatArgs (buildPrompt req.text req.style) req.max_length true

/-- A raised Python exception: either a FastAPI `HTTPException` or any other
exception carrying its message. -/
inductive Exc where
  | http (status : Nat) (detail : String)
  | other (msg : String)
deriving DecidableEq

/-- Python `str(e)`. starlette `HTTPException.__str__` renders
`f"{status_code}: {detail}"`; other exceptions render their message. -/
def Exc.str : Exc → String
  | .http status detail => toString status ++ ": " ++ detail
  | .other msg => msg

/-- Outcome of the synchronous handler: a 200 JSON body or an HTTP error
response produced from a raised `HTTPException`. -/
inductive SyncResult where
  | ok (resp : TextSummarizeResponse)
  | httpError (status : Nat) (detail : String)
deriving DecidableEq

/-- The `except Exception as e` clause shared verbatim by both handlers
(lines 127-143 and 243-259): classify `str(e)` case-insensitively by
substring and produce the resulting `HTTPException` status and detail. -/
def exceptClause (e : Exc) : Nat × String :=
  if strContains (pyLower e.str) "api_key" then
    (401, "Writer API key not configured. Please set WRITER_API_KEY environment variable.")
  else if strContains (pyLower e.str) "rate limit" then
    (429, "Rate limit exceeded. Please try again later.")
  else
    (500, "Error generating summary: " ++ e.str)

/-- The `try` block of the synchronous handler (lines 67-125): validation
raises `HTTPException(400, ...)`, the upstream call may raise, and on success
the response is shaped from the stripped content. `up` is the upstream SDK
call; its `Except.ok` value is `response.choices[0].message.content`. -/
def tryBody (req : TextSummarizeRequest) (up : ChatArgs → Except String String) :
    Except Exc TextSummarizeResponse :=
  if pyStrip req.text = "" then
    .error (.http 400 "Text cannot be empty")
  else if (pyStrip req.text).length < 50 then
    .error (.http 400 "Text must be at least 50 characters long")
  else
    let original_word_count := count_words req.text
    match up (syncChatArgs req) with
    | .error msg => .error (.other msg)
    | .ok content =>
      let summary := pyStrip content
      let summary_word_count := count_words summary
      .ok { summary := summary
            original_word_count := original_word_count
            summary_word_count := summary_word_count
            compressionRatio := compression_ratio original_word_count summary_word_count }

/-- The synchronous endpoint `POST /api/summarize` (lines 62-143). Note the
validation `HTTPException(400, ...)` raised inside the `try` block is caught
by `except Exception` and re-classified by `exceptClause`. -/
def summarize_text (req : TextSummarizeRequest) (up : ChatArgs → Except String String) :
    SyncResult :=
  match tryBody req up with
  | .ok resp => .ok resp
  | .error e =>
    let (status, detail) := exceptClause e
    .httpError status detail

/-- One streamed event of the streaming endpoint, before SSE JSON framing. -/
inductive Event where
  | chunk (content : String)
  | complete (summary : String) (original_word_count summary_word_count : Nat)
      (compressionRatio : ℚ)
  | error (msg : String)
deriving DecidableEq

/-- The content a relay iteration extracts from one upstream chunk:
`hasattr(chunk.choices[0].delta, 'content') and chunk.choices[0].delta.content`.
`none` models a chunk whose delta lacks the attribute or holds `None`; an
empty string is falsy in Python and is likewise skipped. -/
def emittedContent : Option String → Option String
  | some s => if s = "" then none else some s
  | none => none

/-- Outcome of iterating the upstream stream: either every chunk is delivered,
or an exception with message `msg` is raised after the listed chunks were
delivered (a failure of the opening call itself is `.failure [] msg`). -/
inductive StreamOutcome where
  | success (chunks : List (Option String))
  | failure (chunks : List (Option String)) (msg : String)

/-- The `chunk` events yielded by the relay loop (lines 203-209), in order. -/
def chunkEvents (chunks : List (Option String)) : List Event :=
  chunks.filterMap (fun c => (emittedContent c).map Event.chunk)

/-- The accumulator `summary_text` after the relay loop (lines 185, 206):
the concatenation, in order, of every emitted content increment. -/
def accContents : List (Option String) → String
  | [] => ""
  | c :: rest =>
    match emittedContent c with
    | some s => s ++ accContents rest
    | none => accContents rest

/-- The async generator `generate_stream` (lines 183-231): call upstream with
`stream=True`, relay content-bearing chunks, then either emit the terminal
`complete` event with statistics over the accumulated text, or, if an
exception was raised at any point, emit the terminal `error` event. -/
def generate_stream (original_word_count : Nat) (req : TextSummarizeRequest)
    (up : ChatArgs → StreamOutcome) : List Event :=
  match up (streamChatArgs req) with
  | .failure chunks msg => chunkEvents chunks ++ [.error msg]
  | .success chunks =>
    let summary_text := accContents chunks
    let summary_word_count := count_words summary_text
    chunkEvents chunks ++
      [.complete summary_text original_word_count summary_word_count
        (compression_ratio original_word_count summary_word_count)]

/-- Outcome of the streaming endpoint: an HTTP error response (only reachable
from the outer `except`, i.e. from validation), or a committed 200
`text/event-stream` response whose body is the event list. -/
inductive StreamResult where
  | httpError (status : Nat) (detail : String)
  | streaming (events : List Event)

/-- The streaming endpoint `POST /api/summarize/stream` (lines 146-259).
Validation raises inside the outer `try` and is re-classified by the shared
`except` clause; for a validated request the handler returns the
`StreamingResponse` immediately, so every upstream failure happens inside the
generator after the 200 status is committed and never reaches the outer
`except`. -/
def summarize_text_stream (req : TextSummarizeRequest) (up : ChatArgs → StreamOutcome) :
    StreamResult :=
  if pyStrip req.text = "" then
    let (status, detail) := exceptClause (.http 400 "Text cannot be empty")
    .httpError status detail
  else if (pyStrip req.text).length < 50 then
    let (status, detail) := exceptClause (.http 400 "Text must be at least 50 characters long")
    .httpError status detail
  else
    .streaming (generate_stream (count_words req.text) req up)

/-- Concatenation of the contents of all `chunk` events, in order. -/
def chunkConcat : List Event → String
  | [] => ""
  | .chunk c :: rest => c ++ chunkConcat rest
  | .complete _ _ _ _ :: rest => chunkConcat rest
  | .error _ :: rest => chunkConcat rest

/-- The `summary` field of the last event when that event is `complete`. -/
def finalSummary? (events : List Event) : Option String :=
  match events.getLast? with
  | some (.complete s _ _ _) => some s
  | _ => none

/-- Whether an event is a `chunk` event. -/
def isChunkEv : Event → Bool
  | .chunk _ => true
  | _ => false

/-- Whether an event is terminal (`complete` or `error`). -/
def isTerminalEv : Event → Bool
  | .complete _ _ _ _ => true
  | .error _ => true
  | .chunk _ => false

/-- A fixed valid input: trimmed length is at least 50 characters. -/
def sampleText : String :=
  "This is a sample input text that is certainly longer than fifty characters in total."

/-- A fixed invalid input of exactly 49 characters. -/
def shortText : String :=
  "This input text is exactly forty nine chars long!"

/-- Strings of different lengths are different. -/
theorem ne_of_ne_length {a b : String} (h : a.length ≠ b.length) : a ≠ b :=
  fun hab => h (hab ▸ rfl)

/-- Lengths of the fixed parts of the bullet-point template. -/
theorem lenBullet :
    ("Please summarize the following text in bullet points format. Focus on the key points and main ideas:\n\n" : String).length = 102 ∧
    ("\n\nSummary (bullet points):" : String).length = 26 := by
  constructor <;> rfl

/-- Lengths of the fixed parts of the detailed template. -/
theorem lenDetailed :
    ("Please provide a detailed summary of the following text, maintaining important details and context:\n\n" : String).length = 101 ∧
    ("\n\nDetailed summary:" : String).length = 19 := by
  constructor <;> rfl

/-- Lengths of the fixed parts of the concise template. -/
theorem lenConcise :
    ("Please provide a concise summary of the following text, capturing the main points in a clear and brief manner:\n\n" : String).length = 112 ∧
    ("\n\nConcise summary:" : String).length = 18 := by
  constructor <;> rfl

/-- C7: prompt building is total over the style selector: the
`bullet_points` and `detailed` templates are textually distinct from the
`concise` default and from each other for every input text, and every other
style value, including an unset one, falls through to the concise
template. -/
theorem c7_prompt_total_and_templates_distinct :
    (∀ t : String,
      buildPrompt t (some "bullet_points") ≠ buildPrompt t (some "detailed") ∧
      buildPrompt t (some "bullet_points") ≠ buildPrompt t (some "concise") ∧
      buildPrompt t (some "detailed") ≠ buildPrompt t (some "concise")) ∧
    (∀ (t : String) (st : Option String),
      st ≠ some "bullet_points" → st ≠ some "detailed" →
      buildPrompt t st = buildPrompt t (some "concise")) := by
  constructor
  · intro t
    refine ⟨ne_of_ne_length ?_, ne_of_ne_length ?_, ne_of_ne_length ?_⟩ <;>
      · intro h
        simp [buildPrompt, String.length_append, lenBullet.1, lenBullet.2,
          lenDetailed.1, lenDetailed.2, lenConcise.1, lenConcise.2] at h
        omega
  · intro t st h1 h2
    simp [buildPrompt, h1, h2]

/-- C7 witness: an unrecognized style string falls back to the concise
prompt at a concrete input. -/
theorem c7_witness :
    buildPrompt "x" (some "verbose") = buildPrompt "x" (some "concise") :=
  c7_prompt_total_and_templates_distinct.2 "x" (some "verbose") (by decide) (by decide)

/-- C6: the compression ratio equals `round((1 - s/o) * 100, 1)` when the
original word count `o` is positive, equals `0` when `o = 0`, and is not
clamped: it is negative when the summary has more words than the
original. -/
theorem c6_compression_ratio_formula :
    (∀ s : Nat, compression_ratio 0 s = 0) ∧
    (∀ o s : Nat, 0 < o →
      compression_ratio o s = pyRound1 ((1 - (s : ℚ) / (o : ℚ)) * 100)) ∧
    compression_ratio 1 2 < 0 := by
  refine ⟨fun s => rfl, fun o s h => if_pos h, ?_⟩
  have h : ((1 : ℚ) - ((2 : Nat) : ℚ) / ((1 : Nat) : ℚ)) * 100 = -100 := by norm_num
  show pyRound1 ((1 - ((2 : Nat) : ℚ) / ((1 : Nat) : ℚ)) * 100) < 0
  rw [h]
  simp only [pyRound1, ratFloor]
  norm_num

/-- C6 witness: the formula case at the concrete counts `o = 3`, `s = 1`. -/
theorem c6_witness :
    compression_ratio 3 1 = pyRound1 ((1 - ((1 : Nat) : ℚ) / ((3 : Nat) : ℚ)) * 100) :=
  c6_compression_ratio_formula.2.1 3 1 (by decide)

/-- C9 counterexample: a request that specifies `max_length = 0` does not
have its value passed as the max-token budget; both handlers pass 500. -/
theorem c9_counterexample_zero_max_length :
    (syncChatArgs ⟨sampleText, some 0, some "concise"⟩).max_tokens = 500 ∧
    (streamChatArgs ⟨sampleText, some 0, some "concise"⟩).max_tokens = 500 ∧
    (500 : Int) ≠ 0 := by
  refine ⟨rfl, rfl, by decide⟩

/-- C9 amended: every upstream invocation from either handler uses
temperature 0.3; when `max_length` is unspecified the max-token budget is
500; when `max_length` is specified and nonzero its value is passed. -/
theorem c9_amended_invocation_args (req : TextSummarizeRequest) :
    (syncChatArgs req).temperature = 3 / 10 ∧
    (streamChatArgs req).temperature = 3 / 10 ∧
    (req.max_length = none →
      (syncChatArgs req).max_tokens = 500 ∧ (streamChatArgs req).max_tokens = 500) ∧
    (∀ v : Int, req.max_length = some v → v ≠ 0 →
      (syncChatArgs req).max_tokens = v ∧ (streamChatArgs req).max_tokens = v) := by
  refine ⟨rfl, rfl, ?_, ?_⟩
  · intro h
    simp [syncChatArgs, streamChatArgs, chatArgs, h]
  · intro v h hv
    simp [syncChatArgs, streamChatArgs, chatArgs, h, hv]

/-- C9 amended witness: unspecified `max_length` gives budget 500, and a
specified nonzero `max_length` of 7 is passed through. -/
theorem c9_amended_witness :
    (syncChatArgs ⟨sampleText, none, some "concise"⟩).max_tokens = 500 ∧
    (streamChatArgs ⟨sampleText, some 7, some "concise"⟩).max_tokens = 7 :=
  ⟨((c9_amended_invocation_args ⟨sampleText, none, some "concise"⟩).2.2.1 rfl).1,
   ((c9_amended_invocation_args ⟨sampleText, some 7, some "concise"⟩).2.2.2 7 rfl (by decide)).2⟩

/-- C10: a supplied `max_length = 0` is treated as unspecified (Python
truthiness) and 500 is passed upstream by both handlers; any nonzero value,
including a negative one, is forwarded unchanged, and positivity is never
validated: the synchronous handler proceeds to a success response with a
negative `max_length`. -/
theorem c10_truthiness_default_no_positivity_check
    (t : String) (st : Option String) (v : Int) (c : String)
    (hv : v < 0)
    (h1 : pyStrip t ≠ "") (h2 : ¬ (pyStrip t).length < 50) :
    (syncChatArgs ⟨t, some 0, st⟩).max_tokens = 500 ∧
    (streamChatArgs ⟨t, some 0, st⟩).max_tokens = 500 ∧
    (syncChatArgs ⟨t, some v, st⟩).max_tokens = v ∧
    (streamChatArgs ⟨t, some v, st⟩).max_tokens = v ∧
    summarize_text ⟨t, some v, st⟩ (fun _ => .ok c) =
      .ok ⟨pyStrip c, count_words t, count_words (pyStrip c),
        compression_ratio (count_words t) (count_words (pyStrip c))⟩ := by
  have hv0 : v ≠ 0 := by omega
  refine ⟨rfl, rfl, ?_, ?_, ?_⟩
  · simp [syncChatArgs, chatArgs, hv0]
  · simp [streamChatArgs, chatArgs, hv0]
  · unfold summarize_text tryBody
    rw [if_neg h1, if_neg h2]

/-- C10 witness: concrete negative `max_length` request succeeds with the
shaped response. -/
theorem c10_witness :
    summarize_text ⟨sampleText, some (-7), some "concise"⟩
        (fun _ => Except.ok "A short summary.") =
      .ok ⟨pyStrip "A short summary.", count_words sampleText,
        count_words (pyStrip "A short summary."),
        compression_ratio (count_words sampleText)
          (count_words (pyStrip "A short summary."))⟩ :=
  (c10_truthiness_default_no_positivity_check sampleText (some "concise") (-7)
    "A short summary." (by decide) (by decide) (by decide)).2.2.2.2

/-- Appending the terminal complete event does not change the chunk
concatenation. -/
theorem chunkConcat_append_complete (l : List Event) (s : String)
    (o w : Nat) (r : ℚ) :
    chunkConcat (l ++ [.complete s o w r]) = chunkConcat l := by
  induction l with
  | nil => rfl
  | cons x rest ih => cases x <;> simp [chunkConcat, ih]

/-- The concatenation of the relayed chunk events equals the accumulator. -/
theorem chunkConcat_chunkEvents (cs : List (Option String)) :
    chunkConcat (chunkEvents cs) = accContents cs := by
  induction cs with
  | nil => rfl
  | cons c rest ih =>
    cases c with
    | none =>
      simpa [chunkEvents, List.filterMap_cons, emittedContent, accContents] using ih
    | some s =>
      by_cases hs : s = ""
      · subst hs
        simpa [chunkEvents, List.filterMap_cons, emittedContent, accContents] using ih
      · have he : emittedContent (some s) = some s := by simp [emittedContent, hs]
        have h1 : chunkEvents (some s :: rest) = Event.chunk s :: chunkEvents rest := by
          simp [chunkEvents, List.filterMap_cons, he]
        have h2 : accContents (some s :: rest) = s ++ accContents rest := by
          simp [accContents, he]
        rw [h1, h2]
        show s ++ chunkConcat (chunkEvents rest) = s ++ accContents rest
        rw [ih]

/-- Every event produced by the relay loop is a chunk event. -/
theorem mem_chunkEvents_chunk (cs : List (Option String)) :
    ∀ e ∈ chunkEvents cs, isChunkEv e = true := by
  intro e he
  rcases List.mem_filterMap.mp he with ⟨a, _, hfa⟩
  rcases Option.map_eq_some'.mp hfa with ⟨s, _, rfl⟩
  rfl

/-- C4: for every streaming request whose upstream stream completes without
error, the concatenation of all emitted chunk contents, in emission order,
equals the summary field of the final complete event. -/
theorem c4_chunk_concat_equals_final_summary (owc : Nat)
    (req : TextSummarizeRequest) (cs : List (Option String)) :
    finalSummary? (generate_stream owc req (fun _ => .success cs)) =
      some (chunkConcat (generate_stream owc req (fun _ => .success cs))) := by
  have hgen : generate_stream owc req (fun _ => .success cs) =
      chunkEvents cs ++
        [.complete (accContents cs) owc (count_words (accContents cs))
          (compression_ratio owc (count_words (accContents cs)))] := rfl
  rw [hgen, finalSummary?, List.getLast?_concat, chunkConcat_append_complete,
    chunkConcat_chunkEvents]

/-- C5: every stream body consists of zero or more chunk events followed by
exactly one terminal event (complete or error); no event follows the
terminal one. -/
theorem c5_exactly_one_terminal_event (owc : Nat) (req : TextSummarizeRequest)
    (up : ChatArgs → StreamOutcome) :
    ∃ pre t, generate_stream owc req up = pre ++ [t] ∧
      (∀ e ∈ pre, isChunkEv e = true) ∧ isTerminalEv t = true := by
  unfold generate_stream
  cases up (streamChatArgs req) with
  | success cs =>
    exact ⟨chunkEvents cs, _, rfl, mem_chunkEvents_chunk cs, rfl⟩
  | failure cs msg =>
    exact ⟨chunkEvents cs, _, rfl, mem_chunkEvents_chunk cs, rfl⟩

/-- A chunk without emitted content contributes no chunk event. -/
theorem chunkEvents_skip (xs ys : List (Option String)) (c : Option String)
    (h : emittedContent c = none) :
    chunkEvents (xs ++ c :: ys) = chunkEvents (xs ++ ys) := by
  simp [chunkEvents, List.filterMap_append, List.filterMap_cons, h]

/-- A chunk without emitted content contributes nothing to the accumulator. -/
theorem accContents_skip (xs ys : List (Option String)) (c : Option String)
    (h : emittedContent c = none) :
    accContents (xs ++ c :: ys) = accContents (xs ++ ys) := by
  induction xs with
  | nil =>
    show accContents (c :: ys) = accContents ys
    simp [accContents, h]
  | cons x rest ih =>
    show accContents (x :: (rest ++ c :: ys)) = accContents (x :: (rest ++ ys))
    cases hx : emittedContent x <;> simp [accContents, hx, ih]

/-- C8: a relayed upstream chunk that carries no text content is skipped:
the emitted event sequence, in both the successful and the failing stream,
is the same as if the chunk were absent; no error event is produced and the
stream does not end there. -/
theorem c8_contentless_chunk_tolerated (owc : Nat) (req : TextSummarizeRequest)
    (xs ys : List (Option String)) (c : Option String) (msg : String)
    (h : emittedContent c = none) :
    generate_stream owc req (fun _ => .success (xs ++ c :: ys)) =
      generate_stream owc req (fun _ => .success (xs ++ ys)) ∧
    generate_stream owc req (fun _ => .failure (xs ++ c :: ys) msg) =
      generate_stream owc req (fun _ => .failure (xs ++ ys) msg) := by
  constructor
  · show chunkEvents (xs ++ c :: ys) ++ _ = chunkEvents (xs ++ ys) ++ _
    rw [chunkEvents_skip xs ys c h, accContents_skip xs ys c h]
  · show chunkEvents (xs ++ c :: ys) ++ _ = chunkEvents (xs ++ ys) ++ _
    rw [chunkEvents_skip xs ys c h]

/-- C8 witness: a concrete contentless chunk between two content chunks is
skipped. -/
theorem c8_witness :
    generate_stream 3 ⟨sampleText, none, some "concise"⟩
        (fun _ => .success ([some "alpha "] ++ some "" :: [some "beta"])) =
      generate_stream 3 ⟨sampleText, none, some "concise"⟩
        (fun _ => .success ([some "alpha "] ++ [some "beta"])) :=
  (c8_contentless_chunk_tolerated 3 ⟨sampleText, none, some "concise"⟩
    [some "alpha "] [some "beta"] (some "") "unused" (by decide)).1

/-- C1: evaluation of both handlers at empty and at 49-character input.
The validation `HTTPException(400, ...)` raised inside the `try` block is
caught by the blanket `except Exception` clause and re-raised as a 500
whose detail interpolates the stringified 400 exception; no upstream call
is made (the result does not depend on `up`). The spec and the
deliberately-raised 400 agree that these are 400 validation errors, so the
re-wrapping to 500 is a slip of the code. -/
theorem c1_validation_error_rewrapped_to_500 :
    (∀ up, summarize_text ⟨"", none, some "concise"⟩ up =
      .httpError 500 "Error generating summary: 400: Text cannot be empty") ∧
    (∀ up, summarize_text_stream ⟨"", none, some "concise"⟩ up =
      .httpError 500 "Error generating summary: 400: Text cannot be empty") ∧
    (∀ up, summarize_text ⟨shortText, none, some "concise"⟩ up =
      .httpError 500 "Error generating summary: 400: Text must be at least 50 characters long") ∧
    (∀ up, summarize_text_stream ⟨shortText, none, some "concise"⟩ up =
      .httpError 500 "Error generating summary: 400: Text must be at least 50 characters long") :=
  ⟨fun _ => rfl, fun _ => rfl, fun _ => rfl, fun _ => rfl⟩

/-- C2: when the upstream call that opens the stream fails before any chunk
is produced (here with a bad-credential message), the streaming endpoint
does not return a non-streaming 401/429/500 error response: the failure
happens inside the response generator, after the 200 event-stream response
is committed, and is emitted as a terminal error event inside the
stream. -/
theorem c2_open_stream_failure_becomes_stream_event :
    summarize_text_stream ⟨sampleText, none, some "concise"⟩
        (fun _ => .failure [] "Invalid api_key provided") =
      .streaming [.error "Invalid api_key provided"] := rfl

/-- C3: every exception escaping the synchronous handler work is classified
by case-insensitive substring match on the stringified error: an API-key
indicator gives a 401 with a fixed message; otherwise a rate-limit
indicator gives a 429 with a fixed message; any other error gives a 500
whose detail interpolates the original error text. The handler is a total
function, so no failure is leaked as an unhandled fault. -/
theorem c3_sync_exception_classification (req : TextSummarizeRequest)
    (msg : String)
    (h1 : pyStrip req.text ≠ "") (h2 : ¬ (pyStrip req.text).length < 50) :
    summarize_text req (fun _ => Except.error msg) =
      (if strContains (pyLower msg) "api_key" then
        .httpError 401 "Writer API key not configured. Please set WRITER_API_KEY environment variable."
      else if strContains (pyLower msg) "rate limit" then
        .httpError 429 "Rate limit exceeded. Please try again later."
      else
        .httpError 500 ("Error generating summary: " ++ msg)) := by
  simp only [summarize_text, tryBody, exceptClause, Exc.str, if_neg h1, if_neg h2]
  split
  · rfl
  · split <;> rfl

/-- C3 witness: a concrete upstream error without either indicator is
surfaced as a 500 interpolating the original text. -/
theorem c3_witness :
    summarize_text ⟨sampleText, none, some "concise"⟩
        (fun _ => Except.error "connection reset by peer") =
      .httpError 500 "Error generating summary: connection reset by peer" := by
  have h := c3_sync_exception_classification ⟨sampleText, none, some "concise"⟩
    "connection reset by peer" (by decide) (by decide)
  rw [h]
  rfl
